import Mathlib

/-!
Verification of the GigaChat text-generator plugin (src/main.ts) against its
design specification.

The plugin's core is embedded shallowly:

* `TextGeneratorSettings` / `DEFAULT_SETTINGS` mirror the settings interface
  and its defaults (main.ts lines 6-31).
* JSON values are modelled by `Json`; JavaScript expression values by
  `JsValue` (`none` is `undefined`).  Property/index access follows JS
  semantics: reading a member of `undefined` or `null` throws a `TypeError`,
  reading a missing member of an object yields `undefined`.
* An HTTP response delivered by `fetch` is `HttpResponse` (status, status
  text, parsed JSON body); `HttpResponse.ok` is the fetch-API `ok` flag
  (status in 200..299).  The network is a parameter: each embedded operation
  takes the response the endpoint would return for the request it sends, and
  returns the request it sent (so that claims about the request shape can be
  stated) together with its result.
* Errors thrown by the code are `PluginError`: the token-endpoint error
  `Error("HTTP <status>: <statusText>")` (main.ts line 213), the completion
  error `Error("API error: <status> <statusText>")` (lines 470, 515), and a
  raw JavaScript `TypeError` from member access on `undefined`/`null`.
* User-triggered flows (`generateButton.onclick` of the modal, lines 383-430,
  and `testConnection`, lines 152-190) are embedded as trace-producing
  functions: the `Event` list records, in order, the token request, the
  completion request, and any editor insertion.

Randomness (the UUID of `generateUuid`) is passed in as a parameter, and
numbers (JS IEEE floats) are modelled as rationals; none of the embedded code
performs numeric arithmetic, it only passes numbers through.
-/

/-- A JSON value, as produced by `response.json()`. -/
inductive Json where
  | null : Json
  | bool (b : Bool) : Json
  | num (n : ℚ) : Json
  | str (s : String) : Json
  | arr (elems : List Json) : Json
  | obj (fields : List (String × Json)) : Json

/-- A JavaScript expression value: `none` is `undefined`. -/
abbrev JsValue := Option Json

/-- Errors thrown by the plugin code.
`httpAuth` is `throw new Error(\x7bHTTP ${status}: ${statusText}\x7d)` in
`getAccessToken` (main.ts line 213); `apiError` is
`throw new Error(\x7bAPI error: ${status} ${statusText}\x7d)` in
`generateText` / `generateTextWithContext` (lines 470, 515); `typeError` is
the raw JavaScript TypeError raised by reading the named member of
`undefined` or `null`. -/
inductive PluginError where
  | httpAuth (status : Nat) (statusText : String) : PluginError
  | apiError (status : Nat) (statusText : String) : PluginError
  | typeError (member : String) : PluginError
deriving DecidableEq

/-- An HTTP response as seen through the fetch API, with the body already
parsed as JSON (`await response.json()`). -/
structure HttpResponse where
  status : Nat
  statusText : String
  body : Json

/-- The fetch-API `response.ok` flag: status in the range 200-299. -/
def HttpResponse.ok (r : HttpResponse) : Bool :=
  200 ≤ r.status && r.status < 300

/-- JavaScript property read `v.field`: throws TypeError on `undefined` and
`null`; on an object, looks the field up (missing gives `undefined`); on any
other value there is no such own property, giving `undefined`. -/
def jsGetField (v : JsValue) (field : String) : Except PluginError JsValue :=
  match v with
  | none => .error (.typeError field)
  | some .null => .error (.typeError field)
  | some (.obj fields) => .ok (fields.lookup field)
  | some _ => .ok none

/-- JavaScript index read `v[i]`: throws TypeError on `undefined` and `null`;
on an array, yields the element (or `undefined` out of range); on a string,
yields the one-character string (or `undefined`); on an object, looks up the
numeric key; otherwise `undefined`. -/
def jsIndex (v : JsValue) (i : Nat) : Except PluginError JsValue :=
  match v with
  | none => .error (.typeError (toString i))
  | some .null => .error (.typeError (toString i))
  | some (.arr elems) => .ok (elems.get? i)
  | some (.str s) => .ok ((s.toList.get? i).map (fun c => .str (String.singleton c)))
  | some (.obj fields) => .ok (fields.lookup (toString i))
  | some _ => .ok none

/-- JavaScript truthiness, as tested by `if (x)` / `if (!x)`. -/
def jsTruthy : JsValue → Bool
  | none => false
  | some .null => false
  | some (.bool b) => b
  | some (.num n) => decide (n ≠ 0)
  | some (.str s) => decide (s ≠ "")
  | some (.arr _) => true
  | some (.obj _) => true

mutual

/-- JavaScript string coercion of a defined value, as in a template literal.
(Number formatting is abstracted by the rational's own representation; the
embedded code never builds a request from a stringified number.) -/
def jsonToString : Json → String
  | .null => "null"
  | .bool true => "true"
  | .bool false => "false"
  | .num n => toString n
  | .str s => s
  | .arr elems => String.intercalate "," (jsonListToString elems)
  | .obj _ => "[object Object]"

/-- Stringification of the elements of a JSON array (JS `Array.prototype.toString`). -/
def jsonListToString : List Json → List String
  | [] => []
  | j :: js => jsonToString j :: jsonListToString js

end

/-- JavaScript string coercion `\x7b${x}\x7d` of any value. -/
def jsToString : JsValue → String
  | none => "undefined"
  | some j => jsonToString j

/-- The settings record (interface `TextGeneratorSettings`, main.ts 6-16). -/
structure TextGeneratorSettings where
  apiKey : String
  apiUrl : String
  authUrl : String
  clientId : String
  scope : String
  model : String
  temperature : ℚ
  maxTokens : ℚ
  logMessages : Bool

/-- `DEFAULT_SETTINGS` (main.ts 21-31). -/
def DEFAULT_SETTINGS : TextGeneratorSettings :=
  { apiKey := ""
    apiUrl := "https://gigachat.devices.sberbank.ru/api/v1"
    authUrl := "https://ngw.devices.sberbank.ru:9443/api/v2/oauth"
    clientId := "<base64>"
    scope := "GIGACHAT_API_PERS"
    model := "GigaChat"
    temperature := 7/10
    maxTokens := 1000
    logMessages := true }

/-- The data `loadData()` may find in storage: a partial settings record
(absent file is modelled by `Option PersistedData = none` at the call site). -/
structure PersistedData where
  apiKey : Option String
  apiUrl : Option String
  authUrl : Option String
  clientId : Option String
  scope : Option String
  model : Option String
  temperature : Option ℚ
  maxTokens : Option ℚ
  logMessages : Option Bool

/-- `Object.assign(\x7b\x7d, DEFAULT_SETTINGS, data)`: each field present in
`data` overrides the default. -/
def assignSettings (base : TextGeneratorSettings) (d : PersistedData) :
    TextGeneratorSettings :=
  { apiKey := d.apiKey.getD base.apiKey
    apiUrl := d.apiUrl.getD base.apiUrl
    authUrl := d.authUrl.getD base.authUrl
    clientId := d.clientId.getD base.clientId
    scope := d.scope.getD base.scope
    model := d.model.getD base.model
    temperature := d.temperature.getD base.temperature
    maxTokens := d.maxTokens.getD base.maxTokens
    logMessages := d.logMessages.getD base.logMessages }

/-- `loadSettings` (main.ts 109-111): merge the defaults with whatever
`loadData()` returned (`none` models a missing data file, which
`Object.assign` ignores). -/
def loadSettings : Option PersistedData → TextGeneratorSettings
  | none => DEFAULT_SETTINGS
  | some d => assignSettings DEFAULT_SETTINGS d

/-- `saveSettings` (main.ts 116-118): `saveData(this.settings)` persists the
full record, every field present. -/
def saveSettings (s : TextGeneratorSettings) : PersistedData :=
  { apiKey := some s.apiKey
    apiUrl := some s.apiUrl
    authUrl := some s.authUrl
    clientId := some s.clientId
    scope := some s.scope
    model := some s.model
    temperature := some s.temperature
    maxTokens := some s.maxTokens
    logMessages := some s.logMessages }

/-- The OAuth token request built by `getAccessToken` (main.ts 201-209). -/
structure TokenRequest where
  url : String
  contentType : String
  authorization : String
  rqUid : String
  body : String
deriving DecidableEq

/-- The token request `getAccessToken` sends: form-encoded POST to the auth
URL with `Basic` client id, the generated request UUID, and `scope=<scope>`
as the body (main.ts 201-209). -/
def tokenRequest (settings : TextGeneratorSettings) (rqUid : String) : TokenRequest :=
  { url := settings.authUrl
    contentType := "application/x-www-form-urlencoded"
    authorization := "Basic " ++ settings.clientId
    rqUid := rqUid
    body := "scope=" ++ settings.scope }

/-- `getAccessToken` (main.ts 196-226), applied to the response the token
endpoint returns.  On a non-ok response it throws
`Error(\x7bHTTP ${status}: ${statusText}\x7d)` (line 213; the catch block
logs and rethrows, so the error propagates).  On success it reads
`authData.expires_in` (for the log entry built on line 218, evaluated before
`logMessage` runs) and returns `authData.access_token` (line 219) — a single
value; `expires_in` is not part of the return. -/
def getAccessToken (settings : TextGeneratorSettings) (authResponse : HttpResponse) :
    Except PluginError JsValue :=
  if !authResponse.ok then
    .error (.httpAuth authResponse.status authResponse.statusText)
  else do
    let _expiresIn ← jsGetField (some authResponse.body) "expires_in"
    jsGetField (some authResponse.body) "access_token"

/-- One chat message of the request body (`\x7b role, content \x7d`). -/
structure ChatMessage where
  role : String
  content : String
deriving DecidableEq

/-- A chat-completion request as sent by `fetch` in `generateText`,
`generateTextWithContext` and `testApiRequest`: URL, bearer header, and the
JSON body fields `model`, `messages`, `temperature`, `max_tokens`. -/
structure CompletionRequest where
  url : String
  authorization : String
  model : String
  messages : List ChatMessage
  temperature : ℚ
  max_tokens : ℚ
deriving DecidableEq

/-- The shared request shape of the three completion call sites (main.ts
449-466, 495-512, 238-255): POST to `<apiUrl>/chat/completions`, header
`Authorization: Bearer <accessToken>`, body with the model, a one-element
`user` message list, and the given temperature and max_tokens. -/
def mkChatRequest (settings : TextGeneratorSettings) (accessToken content : String)
    (temperature max_tokens : ℚ) : CompletionRequest :=
  { url := settings.apiUrl ++ "/chat/completions"
    authorization := "Bearer " ++ accessToken
    model := settings.model
    messages := [⟨"user", content⟩]
    temperature := temperature
    max_tokens := max_tokens }

/-- `data.choices[0].message.content` (main.ts 475, 519), with JS member
semantics: a missing `choices` or an empty array makes a later step read a
member of `undefined` and throw a TypeError. -/
def extractContent (body : Json) : Except PluginError JsValue := do
  let choices ← jsGetField (some body) "choices"
  let first ← jsIndex choices 0
  let message ← jsGetField first "message"
  jsGetField message "content"

/-- Fails iff the value is `undefined` or `null`: models the evaluation of
`generatedText.length` while building the success log entry (main.ts 478,
521), which throws a TypeError exactly in those cases. -/
def requireDefined (v : JsValue) : Except PluginError Unit :=
  match v with
  | none => .error (.typeError "length")
  | some .null => .error (.typeError "length")
  | some _ => .ok ()

/-- The response handling shared by `generateText` and
`generateTextWithContext` (main.ts 468-479, 514-522): non-ok status throws
`Error(\x7bAPI error: ...\x7d)`, otherwise the first choice's content is
extracted and returned (after `generatedText.length` is read for the log). -/
def completionResult (response : HttpResponse) : Except PluginError JsValue :=
  if !response.ok then
    .error (.apiError response.status response.statusText)
  else do
    let content ← extractContent response.body
    requireDefined content
    pure content

/-- `generateText(prompt, accessToken)` (main.ts 444-480): the request it
sends (message content is the prompt verbatim, temperature and max_tokens
from the settings) and its result on the given endpoint response. -/
def generateText (settings : TextGeneratorSettings) (prompt accessToken : String)
    (response : HttpResponse) : CompletionRequest × Except PluginError JsValue :=
  (mkChatRequest settings accessToken prompt settings.temperature settings.maxTokens,
   completionResult response)

/-- The context-augmented prompt of `generateTextWithContext` (main.ts 493):
`\x7b${prompt}\n\nКонтекст:\n"${context}"\x7d`. -/
def fullPrompt (prompt context : String) : String :=
  prompt ++ "\n\nКонтекст:\n\"" ++ context ++ "\""

/-- `generateTextWithContext(prompt, context, accessToken)` (main.ts
488-523): identical to `generateText` except that the message content is the
context-augmented prompt. -/
def generateTextWithContext (settings : TextGeneratorSettings)
    (prompt context accessToken : String) (response : HttpResponse) :
    CompletionRequest × Except PluginError JsValue :=
  (mkChatRequest settings accessToken (fullPrompt prompt context)
     settings.temperature settings.maxTokens,
   completionResult response)

/-- The fixed test prompt of `testApiRequest` (main.ts 249). -/
def testPrompt : String := "Ответь одним словом: \"работает\""

/-- `testApiRequest(accessToken)` (main.ts 233-272): sends the minimal test
completion request (temperature 0.1, max_tokens 10, fixed one-word-reply
prompt) and returns `true` iff the response is ok (its catch block turns the
thrown error into `false`). -/
def testApiRequest (settings : TextGeneratorSettings) (accessToken : String)
    (response : HttpResponse) : CompletionRequest × Bool :=
  (mkChatRequest settings accessToken testPrompt (1/10) 10, response.ok)

/-- An observable step of a user-triggered flow: a network request sent, or
text inserted into the editor (`editor.replaceRange`, main.ts 417). -/
inductive Event where
  | tokenReq (r : TokenRequest) : Event
  | completionReq (r : CompletionRequest) : Event
  | insert (text : JsValue) : Event

/-- Whether an event is a completion request. -/
def Event.isCompletionReq : Event → Bool
  | .completionReq _ => true
  | _ => false

/-- Whether an event is an editor insertion. -/
def Event.isInsert : Event → Bool
  | .insert _ => true
  | _ => false

/-- `testConnection` (main.ts 152-190) with the responses the two endpoints
would return: no API key aborts before any network call; a token-fetch error
is caught and gives `false`; a falsy token gives `false` without a completion
request; otherwise `testApiRequest` decides the result. -/
def testConnection (settings : TextGeneratorSettings) (rqUid : String)
    (tokenResp complResp : HttpResponse) : List Event × Bool :=
  if settings.apiKey = "" then ([], false)
  else
    match getAccessToken settings tokenResp with
    | .error _ => ([.tokenReq (tokenRequest settings rqUid)], false)
    | .ok accessToken =>
      if !jsTruthy accessToken then
        ([.tokenReq (tokenRequest settings rqUid)], false)
      else
        let (req, okB) := testApiRequest settings (jsToString accessToken) complResp
        ([.tokenReq (tokenRequest settings rqUid), .completionReq req], okB)

/-- The outcome of one click of the modal's Generate button. -/
inductive ClickOutcome where
  | noApiKey : ClickOutcome
  | noPrompt : ClickOutcome
  | errorShown (e : PluginError) : ClickOutcome
  | inserted (text : JsValue) : ClickOutcome

/-- Whether the outcome inserted text into the editor. -/
def ClickOutcome.isInserted : ClickOutcome → Bool
  | .inserted _ => true
  | _ => false

/-- `generateButton.onclick` of the modal (main.ts 383-430): empty API key or
empty prompt abort with a notice; otherwise a token is fetched, then —
depending on whether `initialText` is non-empty — `generateTextWithContext`
or `generateText` runs, and only a successful result is inserted at the
cursor; any thrown error is shown in the status element instead. -/
def generateClick (settings : TextGeneratorSettings)
    (prompt initialText rqUid : String) (tokenResp complResp : HttpResponse) :
    List Event × ClickOutcome :=
  if settings.apiKey = "" then ([], .noApiKey)
  else if prompt = "" then ([], .noPrompt)
  else
    match getAccessToken settings tokenResp with
    | .error e => ([.tokenReq (tokenRequest settings rqUid)], .errorShown e)
    | .ok accessToken =>
      let pr :=
        if initialText = "" then
          generateText settings prompt (jsToString accessToken) complResp
        else
          generateTextWithContext settings prompt initialText (jsToString accessToken) complResp
      match pr.2 with
      | .error e =>
        ([.tokenReq (tokenRequest settings rqUid), .completionReq pr.1], .errorShown e)
      | .ok text =>
        ([.tokenReq (tokenRequest settings rqUid), .completionReq pr.1, .insert text],
         .inserted text)

/-! ### Concrete inputs used by witnesses and counterexamples -/

/-- A token-endpoint success response with `access_token: "T"`,
`expires_in: 1800`. -/
def tokenResp1800 : HttpResponse :=
  { status := 200, statusText := "OK"
    body := .obj [("access_token", .str "T"), ("expires_in", .num 1800)] }

/-- The same success response except `expires_in: 7`. -/
def tokenResp7 : HttpResponse :=
  { status := 200, statusText := "OK"
    body := .obj [("access_token", .str "T"), ("expires_in", .num 7)] }

/-- A token-endpoint success response carrying an empty `access_token`. -/
def emptyTokenResp : HttpResponse :=
  { status := 200, statusText := "OK"
    body := .obj [("access_token", .str ""), ("expires_in", .num 30)] }

/-- A 401 response from the token endpoint. -/
def resp401 : HttpResponse :=
  { status := 401, statusText := "Unauthorized", body := .null }

/-- A 500 response from the completion endpoint. -/
def resp500 : HttpResponse :=
  { status := 500, statusText := "Internal Server Error", body := .null }

/-- A completion success response whose `choices` is the empty array. -/
def emptyChoicesResp : HttpResponse :=
  { status := 200, statusText := "OK", body := .obj [("choices", .arr [])] }

/-- A completion success response without a `choices` field. -/
def noChoicesResp : HttpResponse :=
  { status := 200, statusText := "OK", body := .obj [("id", .str "x")] }

/-- A completion success response with one generated choice. -/
def okCompletionResp : HttpResponse :=
  { status := 200, statusText := "OK"
    body := .obj [("choices",
      .arr [.obj [("message", .obj [("role", .str "assistant"),
                                    ("content", .str "Generated")])]])] }

/-- The default settings with an API key set (the modal's gate requires one). -/
def cfgWithKey : TextGeneratorSettings := { DEFAULT_SETTINGS with apiKey := "key" }

/-! ### Claims -/

/-- Reduction of `Except` bind on a success, for unfolding the embedded
do-blocks. -/
@[simp] theorem exceptOkBind {ε α β : Type} (a : α) (f : α → Except ε β) :
    (Except.ok a >>= f : Except ε β) = f a := rfl

/-- Reduction of `Except` bind on an error. -/
@[simp] theorem exceptErrorBind {ε α β : Type} (e : ε) (f : α → Except ε β) :
    (Except.error e >>= f : Except ε β) = .error e := rfl

/-- C2: with a context, the single message content sent by the completion
operation is exactly `prompt ++ "\n\nКонтекст:\n\"" ++ context ++ "\""`;
without a context it is the prompt verbatim. -/
theorem message_content_shape (settings : TextGeneratorSettings)
    (prompt context accessToken : String) (response : HttpResponse) :
    (generateTextWithContext settings prompt context accessToken response).1.messages
      = [⟨"user", prompt ++ "\n\nКонтекст:\n\"" ++ context ++ "\""⟩]
    ∧ (generateText settings prompt accessToken response).1.messages
      = [⟨"user", prompt⟩] :=
  ⟨rfl, rfl⟩

/-- C3: the completion request built by either generation operation carries
the configuration's model, a one-element message list whose sole role is
"user", and the configuration's temperature and maxTokens unmodified. -/
theorem completion_request_passthrough (settings : TextGeneratorSettings)
    (prompt context accessToken : String) (response : HttpResponse) :
    ((generateText settings prompt accessToken response).1.model = settings.model
      ∧ (generateText settings prompt accessToken response).1.messages.map ChatMessage.role
          = ["user"]
      ∧ (generateText settings prompt accessToken response).1.temperature
          = settings.temperature
      ∧ (generateText settings prompt accessToken response).1.max_tokens
          = settings.maxTokens)
    ∧ ((generateTextWithContext settings prompt context accessToken response).1.model
          = settings.model
      ∧ (generateTextWithContext settings prompt context accessToken response).1.messages.map
            ChatMessage.role = ["user"]
      ∧ (generateTextWithContext settings prompt context accessToken response).1.temperature
          = settings.temperature
      ∧ (generateTextWithContext settings prompt context accessToken response).1.max_tokens
          = settings.maxTokens) :=
  ⟨⟨rfl, rfl, rfl, rfl⟩, ⟨rfl, rfl, rfl, rfl⟩⟩

/-- C4: a non-success HTTP status from the token endpoint makes
`getAccessToken` throw the authentication error carrying that status and
status text; no token is returned. -/
theorem getAccessToken_http_error (settings : TextGeneratorSettings)
    (r : HttpResponse) (h : r.ok = false) :
    getAccessToken settings r = .error (.httpAuth r.status r.statusText) := by
  simp [getAccessToken, h]

/-- C4 witness: at a concrete 401 response. -/
theorem getAccessToken_http_error_witness :
    resp401.ok = false
    ∧ getAccessToken DEFAULT_SETTINGS resp401
        = .error (.httpAuth 401 "Unauthorized") :=
  ⟨rfl, getAccessToken_http_error DEFAULT_SETTINGS resp401 rfl⟩

/-- C5: a non-success HTTP status from the completion endpoint makes both
generation operations throw the completion error carrying that status and
status text; no generated text is returned. -/
theorem generate_http_error (settings : TextGeneratorSettings)
    (prompt context accessToken : String) (r : HttpResponse) (h : r.ok = false) :
    (generateText settings prompt accessToken r).2
        = .error (.apiError r.status r.statusText)
    ∧ (generateTextWithContext settings prompt context accessToken r).2
        = .error (.apiError r.status r.statusText) := by
  constructor <;> simp [generateText, generateTextWithContext, completionResult, h]

/-- C5 witness: at a concrete 500 response. -/
theorem generate_http_error_witness :
    resp500.ok = false
    ∧ (generateText DEFAULT_SETTINGS "Hello" "tok" resp500).2
        = .error (.apiError 500 "Internal Server Error")
    ∧ (generateTextWithContext DEFAULT_SETTINGS "Fix" "ctx" "tok" resp500).2
        = .error (.apiError 500 "Internal Server Error") :=
  ⟨rfl, (generate_http_error DEFAULT_SETTINGS "Hello" "ctx" "tok" resp500 rfl).1,
    (generate_http_error DEFAULT_SETTINGS "Fix" "ctx" "tok" resp500 rfl).2⟩

/-- C9: a settings record saved and reloaded through the storage collaborator
comes back field-for-field equal; loading any partial persisted record gives
each present field its persisted value and each missing field its
`DEFAULT_SETTINGS` value. -/
theorem settings_roundtrip (s : TextGeneratorSettings) (d : PersistedData) :
    loadSettings (some (saveSettings s)) = s
    ∧ loadSettings (some d) =
        { apiKey := d.apiKey.getD DEFAULT_SETTINGS.apiKey
          apiUrl := d.apiUrl.getD DEFAULT_SETTINGS.apiUrl
          authUrl := d.authUrl.getD DEFAULT_SETTINGS.authUrl
          clientId := d.clientId.getD DEFAULT_SETTINGS.clientId
          scope := d.scope.getD DEFAULT_SETTINGS.scope
          model := d.model.getD DEFAULT_SETTINGS.model
          temperature := d.temperature.getD DEFAULT_SETTINGS.temperature
          maxTokens := d.maxTokens.getD DEFAULT_SETTINGS.maxTokens
          logMessages := d.logMessages.getD DEFAULT_SETTINGS.logMessages } :=
  ⟨rfl, rfl⟩

/-- C1 counterexample: `getAccessToken` returns only the body's
`access_token` string; two success responses that differ solely in
`expires_in` (1800 versus 7) produce the same return value, so the value
returned does not carry an `expiresInSeconds` equal to the body's
`expires_in`. -/
theorem getAccessToken_drops_expires_in :
    getAccessToken DEFAULT_SETTINGS tokenResp1800
      = getAccessToken DEFAULT_SETTINGS tokenResp7
    ∧ getAccessToken DEFAULT_SETTINGS tokenResp1800 = .ok (some (.str "T"))
    ∧ jsGetField (some tokenResp1800.body) "expires_in" = .ok (some (.num 1800))
    ∧ jsGetField (some tokenResp7.body) "expires_in" = .ok (some (.num 7))
    ∧ (1800 : ℚ) ≠ 7 :=
  ⟨rfl, rfl, rfl, rfl, by norm_num⟩

/-- C1 (amended): on an HTTP-success token response whose body's
`access_token` is the string `t`, `getAccessToken` returns exactly `t` (the
AccessToken's value); `expires_in` is read only for the log entry and is not
part of the return value. -/
theorem getAccessToken_returns_access_token (settings : TextGeneratorSettings)
    (r : HttpResponse) (t : String) (hok : r.ok = true)
    (hat : jsGetField (some r.body) "access_token" = .ok (some (.str t))) :
    getAccessToken settings r = .ok (some (.str t)) := by
  cases hbody : r.body <;>
    rw [hbody] at hat <;>
    simp_all [getAccessToken, jsGetField]

/-- C1 witness: at the mocked response `{access_token: "T", expires_in: 1800}`
the returned token value is `"T"`. -/
theorem getAccessToken_returns_access_token_witness :
    tokenResp1800.ok = true
    ∧ getAccessToken DEFAULT_SETTINGS tokenResp1800 = .ok (some (.str "T")) :=
  ⟨rfl, getAccessToken_returns_access_token DEFAULT_SETTINGS tokenResp1800 "T" rfl rfl⟩

/-- C7: on an HTTP-success completion response whose body is an object with
`choices` absent or the empty array, both generation operations fail with a
raw runtime TypeError (reading a member of `undefined`), not a typed error
and not a defined result. -/
theorem generate_choices_fault (settings : TextGeneratorSettings)
    (prompt context accessToken : String) (r : HttpResponse)
    (fields : List (String × Json)) (hok : r.ok = true) (hbody : r.body = .obj fields)
    (hch : fields.lookup "choices" = none ∨ fields.lookup "choices" = some (.arr [])) :
    ∃ member,
      (generateText settings prompt accessToken r).2 = .error (.typeError member)
      ∧ (generateTextWithContext settings prompt context accessToken r).2
          = .error (.typeError member) := by
  rcases hch with h | h
  · exact ⟨"0", by
      constructor <;>
        simp [generateText, generateTextWithContext, completionResult, hok, hbody,
          extractContent, jsGetField, jsIndex, h] <;> rfl⟩
  · exact ⟨"message", by
      constructor <;>
        simp [generateText, generateTextWithContext, completionResult, hok, hbody,
          extractContent, jsGetField, jsIndex, h]⟩

/-- C7 witness: a concrete success response with an empty `choices` array
makes the plain generation operation fault with a TypeError. -/
theorem generate_choices_fault_witness :
    emptyChoicesResp.ok = true
    ∧ ∃ member,
        (generateText DEFAULT_SETTINGS "Hello" "tok" emptyChoicesResp).2
            = .error (.typeError member)
        ∧ (generateTextWithContext DEFAULT_SETTINGS "Hello" "ctx" "tok"
              emptyChoicesResp).2 = .error (.typeError member) :=
  ⟨rfl, generate_choices_fault DEFAULT_SETTINGS "Hello" "ctx" "tok" emptyChoicesResp
    [("choices", .arr [])] rfl rfl (Or.inr rfl)⟩

/-- C6 counterexample: the modal's generate action does not check the token
for non-emptiness — with a token endpoint that answers success carrying
`access_token: ""`, a completion request is still sent (here it appears in
the action's trace), so a completion request is not only sent after a
non-empty access token has been obtained. -/
theorem completion_sent_with_empty_token :
    getAccessToken cfgWithKey emptyTokenResp = .ok (some (.str ""))
    ∧ (generateClick cfgWithKey "Hello" "" "uid" emptyTokenResp resp500).1.any
        Event.isCompletionReq = true :=
  ⟨rfl, rfl⟩

/-- C6 (amended): if token acquisition fails (throws), neither the modal's
generate action nor the connectivity test sends a completion request; a
completion request is only sent after `getAccessToken` has returned, but the
modal path does not require the returned token to be non-empty. -/
theorem no_completion_after_token_failure (settings : TextGeneratorSettings)
    (prompt initialText rqUid : String) (tokenResp complResp : HttpResponse)
    (e : PluginError) (hfail : getAccessToken settings tokenResp = .error e) :
    (generateClick settings prompt initialText rqUid tokenResp complResp).1.all
        (fun ev => !ev.isCompletionReq) = true
    ∧ (testConnection settings rqUid tokenResp complResp).1.all
        (fun ev => !ev.isCompletionReq) = true := by
  constructor
  · unfold generateClick
    split
    · rfl
    · split
      · rfl
      · rw [hfail]; rfl
  · unfold testConnection
    split
    · rfl
    · rw [hfail]; rfl

/-- C6 witness: at a concrete 401 token response, neither flow's trace holds
a completion request. -/
theorem no_completion_after_token_failure_witness :
    getAccessToken cfgWithKey resp401 = .error (.httpAuth 401 "Unauthorized")
    ∧ (generateClick cfgWithKey "Hello" "" "uid" resp401 resp500).1.all
        (fun ev => !ev.isCompletionReq) = true
    ∧ (testConnection cfgWithKey "uid" resp401 resp500).1.all
        (fun ev => !ev.isCompletionReq) = true :=
  ⟨rfl,
    (no_completion_after_token_failure cfgWithKey "Hello" "" "uid" resp401 resp500
      (.httpAuth 401 "Unauthorized") rfl).1,
    (no_completion_after_token_failure cfgWithKey "Hello" "" "uid" resp401 resp500
      (.httpAuth 401 "Unauthorized") rfl).2⟩

/-- C8: the connectivity test aborts with `false` and an empty trace when the
API key is empty; it reports `true` exactly when the API key is present, the
token fetch returns a truthy token, and the minimal test completion request
succeeds; and the test request is the shared completion shape with
temperature 0.1, max_tokens 10 and the fixed one-word-reply prompt. -/
theorem testConnection_composition (settings : TextGeneratorSettings)
    (rqUid : String) (tokenResp complResp : HttpResponse) :
    testConnection { settings with apiKey := "" } rqUid tokenResp complResp
        = ([], false)
    ∧ ((testConnection settings rqUid tokenResp complResp).2 = true ↔
        settings.apiKey ≠ ""
          ∧ (∃ tok, getAccessToken settings tokenResp = .ok tok
              ∧ jsTruthy tok = true)
          ∧ complResp.ok = true)
    ∧ (∀ tok : String,
        (testApiRequest settings tok complResp).1.url
            = settings.apiUrl ++ "/chat/completions"
        ∧ (testApiRequest settings tok complResp).1.authorization = "Bearer " ++ tok
        ∧ (testApiRequest settings tok complResp).1.model = settings.model
        ∧ (testApiRequest settings tok complResp).1.messages = [⟨"user", testPrompt⟩]
        ∧ (testApiRequest settings tok complResp).1.temperature = 1/10
        ∧ (testApiRequest settings tok complResp).1.max_tokens = 10) := by
  refine ⟨by simp [testConnection], ?_, fun tok => ⟨rfl, rfl, rfl, rfl, rfl, rfl⟩⟩
  unfold testConnection
  split
  · simp_all
  · rename_i hkey
    cases hga : getAccessToken settings tokenResp with
    | error e => simp [hga]
    | ok tok =>
      by_cases htr : jsTruthy tok = true
      · simp [hga, htr, testApiRequest, hkey]
      · simp [hga, htr, Bool.not_eq_true _ ▸ htr]

/-- C10: the modal's generate action inserts into the editor exactly when the
generation call returned successfully, and then exactly the generated text;
on any failure (token fetch or completion) the trace holds no insertion, so
the editor is left unchanged. -/
theorem insert_only_on_success (settings : TextGeneratorSettings)
    (prompt initialText rqUid : String) (tokenResp complResp : HttpResponse) :
    (generateClick settings prompt initialText rqUid tokenResp complResp).1.filter
        Event.isInsert
      = (match (generateClick settings prompt initialText rqUid tokenResp complResp).2 with
         | .inserted t => [.insert t]
         | _ => []) := by
  unfold generateClick
  split
  · rfl
  · split
    · rfl
    · cases getAccessToken settings tokenResp with
      | error e => rfl
      | ok tok =>
        cases hres : (if initialText = "" then
            generateText settings prompt (jsToString tok) complResp
          else
            generateTextWithContext settings prompt initialText
              (jsToString tok) complResp).2 with
        | error e => simp [hres, Event.isInsert]
        | ok text => simp [hres, Event.isInsert]
